import Mathlib

/- Shallow embedding of src/saida_grade.py (incremental sales-by-grade report).
   Machine integers do not occur in the modelled fragment; quantities and prices
   are rationals, timestamps are seconds since 1970-01-01 as naturals, and all
   dataframes are lists of records.  Fallible steps return Except-style values. -/

set_option maxHeartbeats 1000000
set_option maxRecDepth 8192

namespace SaidaGrade

/- Boolean substring test, modelling the Python `in` operator and
   `pandas.Series.str.contains` with a literal (regex-free) pattern. -/
def isPrefOf : List Char → List Char → Bool
  | [], _ => true
  | _ :: _, [] => false
  | a :: as, b :: bs => a == b && isPrefOf as bs

def isSubOf (n : List Char) : List Char → Bool
  | [] => isPrefOf n []
  | c :: t => isPrefOf n (c :: t) || isSubOf n t

def hasSub (hay needle : String) : Bool :=
  isSubOf needle.data hay.data

/- Boolean membership test, modelling `pandas.Series.isin` and Python `in`
   over a collection. -/
def memB {α : Type} [DecidableEq α] (a : α) : List α → Bool
  | [] => false
  | b :: t => if a = b then true else memB a t

theorem memB_eq_true_iff {α : Type} [DecidableEq α] (a : α) (l : List α) :
    memB a l = true ↔ a ∈ l := by
  induction l with
  | nil => simp [memB]
  | cons b t ih =>
    by_cases h : a = b <;> simp [memB, h, ih]

/- One persisted output line of SAIDA_GRADE.csv (the columns written in step 6
   of main, lines 486-512).  The merge in merge_dataframes treats every column
   other than the four key columns as opaque payload, so the non-key columns
   are carried verbatim; TAMANHO/COR/price columns beyond the ones listed here
   behave identically and are folded into the listed payload columns. -/
structure SRow where
  loja : String
  data_movimento : String
  hora_movimento : String
  nome_usuario : String
  codigo_produto : String
  cod_grade : String
  qtd_saida : ℚ
  tipo_mov : String
deriving DecidableEq

/- The string key built in merge_dataframes lines 196-198:
   df[key_cols].astype(str).agg join-with-bar, i.e. the four key columns
   joined with the bar character. -/
def rowKey (r : SRow) : String :=
  r.cod_grade ++ "|" ++ r.data_movimento ++ "|" ++ r.nome_usuario ++ "|" ++ r.tipo_mov

/- The composite business key as a tuple, the object the specification calls
   the composite key (COD_GRADE, DATA_MOVIMENTO, NOME_USUARIO, TIPO_MOV). -/
def tupleKey (r : SRow) : String × String × String × String :=
  (r.cod_grade, r.data_movimento, r.nome_usuario, r.tipo_mov)

/- Emptiness test used by the two early returns of merge_dataframes
   (lines 175-179): `df is None or len(df) == 0`. -/
def dfIsEmpty : Option (List SRow) → Bool
  | none => true
  | some [] => true
  | some (_ :: _) => false

/- Embedding of merge_dataframes (src/saida_grade.py lines 170-221).
   The column-alignment loop (lines 188-194) is vacuous here because SRow has
   a fixed column set; keys_to_update is the set of bar-joined keys of the new
   rows, df_keep the existing rows whose joined key is not among them, and the
   result concatenates df_keep with the new rows (ignore_index only renumbers
   rows and the auxiliary key column is dropped, so neither is modelled). -/
def merge_dataframes (df_existing df_new : Option (List SRow)) : Option (List SRow) :=
  if dfIsEmpty df_existing then df_new
  else if dfIsEmpty df_new then df_existing
  else
    some (((df_existing.getD []).filter
        (fun r => !(memB (rowKey r) ((df_new.getD []).map rowKey)))) ++ df_new.getD [])

/- Row count of an optional dataframe (len of the merge result). -/
def dfLen (df : Option (List SRow)) : Nat :=
  (df.getD []).length

theorem merge_empty_left {e n : Option (List SRow)} (h : dfIsEmpty e = true) :
    merge_dataframes e n = n := by
  rw [merge_dataframes, if_pos h]

theorem merge_empty_right {e n : Option (List SRow)} (he : dfIsEmpty e = false)
    (hn : dfIsEmpty n = true) : merge_dataframes e n = e := by
  rw [merge_dataframes, if_neg (by simp [he]), if_pos hn]

theorem merge_nonempty {e n : Option (List SRow)} (he : dfIsEmpty e = false)
    (hn : dfIsEmpty n = false) :
    merge_dataframes e n
      = some (((e.getD []).filter
          (fun r => !(memB (rowKey r) ((n.getD []).map rowKey)))) ++ n.getD []) := by
  rw [merge_dataframes, if_neg (by simp [he]), if_neg (by simp [hn])]

theorem filter_self_keys_eq_nil (l : List SRow) :
    l.filter (fun r => !(memB (rowKey r) (l.map rowKey))) = [] := by
  rw [List.filter_eq_nil_iff]
  intro r hr
  simp only [Bool.not_eq_true', Bool.not_eq_false]
  exact (memB_eq_true_iff _ _).mpr (List.mem_map_of_mem rowKey hr)

theorem filter_keep_stable (el nl : List SRow) :
    ((el.filter (fun r => !(memB (rowKey r) (nl.map rowKey)))) ++ nl).filter
        (fun r => !(memB (rowKey r) (nl.map rowKey)))
      = el.filter (fun r => !(memB (rowKey r) (nl.map rowKey))) := by
  rw [List.filter_append, filter_self_keys_eq_nil, List.filter_filter]
  simp

/-- C4: merging the same new-lines dataframe twice is idempotent: for every
existing dataframe E and new dataframe N (each possibly None or empty),
merge_dataframes (merge_dataframes E N) N = merge_dataframes E N, so no
duplicate keys are introduced and no quantity is double-counted. -/
theorem merge_dataframes_idempotent (e n : Option (List SRow)) :
    merge_dataframes (merge_dataframes e n) n = merge_dataframes e n := by
  rcases hn : dfIsEmpty n with _ | _
  · rcases he : dfIsEmpty e with _ | _
    · match e, he, n, hn with
      | some (y :: ys), _, some (x :: xs), _ =>
        rw [@merge_nonempty (some (y :: ys)) (some (x :: xs)) rfl rfl]
        simp only [Option.getD_some]
        have hne : dfIsEmpty (some ((((y :: ys).filter
            (fun r => !(memB (rowKey r) (((x :: xs)).map rowKey)))) ++ (x :: xs)))) = false := by
          cases h : (y :: ys).filter (fun r => !(memB (rowKey r) ((x :: xs).map rowKey))) <;>
            simp [dfIsEmpty, h]
        rw [@merge_nonempty _ (some (x :: xs)) hne rfl]
        simp only [Option.getD_some]
        rw [filter_keep_stable]
    · rw [merge_empty_left he]
      match n, hn with
      | some (x :: xs), _ =>
        rw [@merge_nonempty (some (x :: xs)) (some (x :: xs)) rfl rfl]
        simp only [Option.getD_some]
        rw [filter_self_keys_eq_nil]
        simp
  · rcases he : dfIsEmpty e with _ | _
    · rw [merge_empty_right he hn, merge_empty_right he hn]
    · rw [merge_empty_left he, merge_empty_left hn]

/- A string is separator-free when it does not contain the bar character that
   merge_dataframes uses to join the four key columns into one string. -/
def noSepRow (r : SRow) : Prop :=
  ('|' ∉ r.cod_grade.data) ∧ ('|' ∉ r.data_movimento.data) ∧
    ('|' ∉ r.nome_usuario.data) ∧ ('|' ∉ r.tipo_mov.data)

instance (r : SRow) : Decidable (noSepRow r) := by
  unfold noSepRow; infer_instance

theorem append_sep_inj (c : Char) (a : List Char) :
    ∀ b x y : List Char, c ∉ a → c ∉ b →
      a ++ c :: x = b ++ c :: y → a = b ∧ x = y := by
  induction a with
  | nil =>
    intro b x y _ hb h
    cases b with
    | nil => exact ⟨rfl, (List.cons.injEq _ _ _ _ ▸ h).2⟩
    | cons d bs =>
      rw [List.nil_append, List.cons_append, List.cons.injEq] at h
      exact absurd (h.1 ▸ List.mem_cons_self d bs) hb
  | cons d as ih =>
    intro b x y ha hb h
    cases b with
    | nil =>
      rw [List.nil_append, List.cons_append, List.cons.injEq] at h
      exact absurd (h.1 ▸ List.mem_cons_self d as) ha
    | cons d2 bs =>
      rw [List.cons_append, List.cons_append, List.cons.injEq] at h
      have hrec := ih bs x y (fun hm => ha (List.mem_cons_of_mem d hm))
        (fun hm => hb (List.mem_cons_of_mem d2 hm)) h.2
      exact ⟨by rw [h.1, hrec.1], hrec.2⟩

theorem rowKey_data (r : SRow) :
    (rowKey r).data
      = r.cod_grade.data ++ '|' :: (r.data_movimento.data
          ++ '|' :: (r.nome_usuario.data ++ '|' :: r.tipo_mov.data)) := by
  simp [rowKey, String.data_append]

theorem rowKey_inj {r s : SRow} (hr : noSepRow r) (hs : noSepRow s) :
    rowKey r = rowKey s ↔ tupleKey r = tupleKey s := by
  constructor
  · intro h
    have hd : (rowKey r).data = (rowKey s).data := by rw [h]
    rw [rowKey_data, rowKey_data] at hd
    have h1 := append_sep_inj '|' _ _ _ _ hr.1 hs.1 hd
    have h2 := append_sep_inj '|' _ _ _ _ hr.2.1 hs.2.1 h1.2
    have h3 := append_sep_inj '|' _ _ _ _ hr.2.2.1 hs.2.2.1 h2.2
    have e1 : r.cod_grade = s.cod_grade := String.ext h1.1
    have e2 : r.data_movimento = s.data_movimento := String.ext h2.1
    have e3 : r.nome_usuario = s.nome_usuario := String.ext h3.1
    have e4 : r.tipo_mov = s.tipo_mov := String.ext h3.2
    simp [tupleKey, e1, e2, e3, e4]
  · intro h
    have h' := Prod.mk.injEq .. ▸ h
    simp only [tupleKey, Prod.mk.injEq] at h'
    simp [rowKey, h'.1, h'.2.1, h'.2.2.1, h'.2.2.2]

theorem memB_rowKey_iff_tupleKey (r : SRow) (N : List SRow)
    (hr : noSepRow r) (hN : ∀ s ∈ N, noSepRow s) :
    memB (rowKey r) (N.map rowKey) = memB (tupleKey r) (N.map tupleKey) := by
  rcases h : memB (tupleKey r) (N.map tupleKey) with _ | _
  · rcases h2 : memB (rowKey r) (N.map rowKey) with _ | _
    · rfl
    · exfalso
      obtain ⟨s, hsN, hk⟩ := List.mem_map.mp ((memB_eq_true_iff _ _).mp h2)
      have : tupleKey r ∈ N.map tupleKey :=
        List.mem_map.mpr ⟨s, hsN, ((rowKey_inj (hN s hsN) hr).mp hk)⟩
      rw [(memB_eq_true_iff _ _).mpr this] at h
      exact Bool.true_eq_false.mp h
  · obtain ⟨s, hsN, hk⟩ := List.mem_map.mp ((memB_eq_true_iff _ _).mp h)
    exact (memB_eq_true_iff _ _).mpr
      (List.mem_map.mpr ⟨s, hsN, ((rowKey_inj (hN s hsN) hr).mpr hk)⟩)

theorem filter_rowKey_eq_filter_tupleKey (E N : List SRow)
    (hE : ∀ r ∈ E, noSepRow r) (hN : ∀ s ∈ N, noSepRow s) :
    E.filter (fun r => !(memB (rowKey r) (N.map rowKey)))
      = E.filter (fun r => !(memB (tupleKey r) (N.map tupleKey))) := by
  apply List.filter_congr
  intro r hrE
  rw [memB_rowKey_iff_tupleKey r N (hE r hrE) hN]

theorem length_filter_not_add_countP {α : Type} (p : α → Bool) (l : List α) :
    (l.filter (fun r => !(p r))).length + l.countP p = l.length := by
  induction l with
  | nil => simp
  | cons a t ih =>
    rcases h : p a with _ | _ <;>
      simp [List.filter_cons, List.countP_cons, h] <;> omega

/- Existing row whose grade field contains the bar separator. -/
def e0 : SRow :=
  ⟨"L1", "C", "08:00", "u", "p1", "A|B", 1, "t"⟩

/- New row with a different composite key whose bar-joined key string
   nevertheless collides with the key string of e0. -/
def n0 : SRow :=
  ⟨"L1", "B|C", "09:00", "u", "p1", "A", 2, "t"⟩

/- Separator-free sample rows for witnesses. -/
def w1 : SRow :=
  ⟨"L1", "D1", "08:00", "ana", "p1", "G1", 1, "VENDA"⟩

def w2 : SRow :=
  ⟨"L1", "D1", "09:00", "ana", "p2", "G2", 2, "VENDA"⟩

/-- C1 counterexample: the claim as stated fails on the code.  The rows e0 and
n0 have distinct composite keys (COD_GRADE, DATA_MOVIMENTO, NOME_USUARIO,
TIPO_MOV), each input dataframe is a singleton with pairwise-distinct keys, yet
merge_dataframes drops e0 because the implementation compares bar-joined key
strings and the joined strings of e0 and n0 collide; the claim instead demands
that e0 be retained.  Moreover, with E the empty dataframe and N equal to None,
the result is None and not E. -/
theorem merge_dataframes_claim_cex :
    tupleKey e0 ≠ tupleKey n0
    ∧ merge_dataframes (some [e0]) (some [n0]) = some [n0]
    ∧ merge_dataframes (some ([] : List SRow)) none = none
    ∧ (none : Option (List SRow)) ≠ some ([] : List SRow) := by
  refine ⟨by decide, by decide, rfl, by decide⟩

/-- C1 (amended): for dataframes E and N with pairwise-distinct composite keys
whose key fields are free of the bar separator character, merge_dataframes
returns exactly every row of N together with every row of E whose composite
key does not occur among the keys of N, and the result has at most one row per
composite key; furthermore if N is empty or None while E is nonempty the
result is E unchanged, and if E is empty or None the result is N. -/
theorem merge_dataframes_upsert_correct :
    (∀ E N : List SRow,
        (∀ r ∈ E, noSepRow r) → (∀ s ∈ N, noSepRow s) →
        (E.map tupleKey).Nodup → (N.map tupleKey).Nodup →
        merge_dataframes (some E) (some N)
            = some ((E.filter (fun r => !(memB (tupleKey r) (N.map tupleKey)))) ++ N)
          ∧ (((E.filter (fun r => !(memB (tupleKey r) (N.map tupleKey)))) ++ N).map
              tupleKey).Nodup)
    ∧ (∀ e n, dfIsEmpty n = true → dfIsEmpty e = false → merge_dataframes e n = e)
    ∧ (∀ e n, dfIsEmpty e = true → merge_dataframes e n = n) := by
  refine ⟨?_, ?_, ?_⟩
  · intro E N hE hN hnodE hnodN
    constructor
    · match E, N with
      | [], N => rw [@merge_empty_left (some []) (some N) rfl]; simp
      | (y :: ys), [] =>
        rw [@merge_empty_right (some (y :: ys)) (some []) rfl rfl, List.append_nil]
        have : (y :: ys).filter (fun r => !(memB (tupleKey r) (([] : List SRow).map tupleKey)))
            = y :: ys := by
          apply List.filter_eq_self.mpr
          intro a _
          simp [memB]
        rw [this]
      | (y :: ys), (x :: xs) =>
        rw [@merge_nonempty (some (y :: ys)) (some (x :: xs)) rfl rfl]
        simp only [Option.getD_some]
        rw [filter_rowKey_eq_filter_tupleKey _ _ hE hN]
    · rw [List.map_append]
      apply List.Nodup.append
      · exact ((List.filter_sublist E).map tupleKey).nodup hnodE
      · exact hnodN
      · intro k hkF hkN
        obtain ⟨r, hrF, hrk⟩ := List.mem_map.mp hkF
        have hpred := (List.mem_filter.mp hrF).2
        rw [Bool.not_eq_true'] at hpred
        have : memB (tupleKey r) (N.map tupleKey) = true :=
          (memB_eq_true_iff _ _).mpr (hrk ▸ hkN)
        rw [this] at hpred
        exact Bool.true_eq_false.mp hpred
  · intro e n hn he
    exact merge_empty_right he hn
  · intro e n he
    exact merge_empty_left he

/-- C1 witness: the amended theorem applied at concrete separator-free
singleton dataframes with distinct keys. -/
theorem merge_dataframes_upsert_correct_witness :
    merge_dataframes (some [w1]) (some [w2]) = some [w1, w2] := by
  have h := (merge_dataframes_upsert_correct.1 [w1] [w2]
    (by decide) (by decide) (by decide) (by decide)).1
  rw [h]
  decide

/-- C5 counterexample: the claim as stated fails on the code.  For the
singleton dataframes of e0 and n0 the merge result has 1 row, but the claimed
formula |E| - |rows of E whose composite key occurs in N| + |N| evaluates to 2,
because the composite key of e0 does not occur in N even though its bar-joined
key string collides with that of n0. -/
theorem merge_conservation_claim_cex :
    dfLen (merge_dataframes (some [e0]) (some [n0])) = 1
    ∧ [e0].length - [e0].countP (fun r => memB (tupleKey r) ([n0].map tupleKey))
        + [n0].length = 2 := by
  refine ⟨by decide, by decide⟩

/-- C5 (amended): for nonempty dataframes E and N whose key fields are free of
the bar separator character, the row count of merge_dataframes E N equals the
length of E minus the number of rows of E whose composite key also occurs in N
plus the length of N. -/
theorem merge_dataframes_conservation :
    ∀ E N : List SRow, E ≠ [] → N ≠ [] →
      (∀ r ∈ E, noSepRow r) → (∀ s ∈ N, noSepRow s) →
      dfLen (merge_dataframes (some E) (some N))
        = E.length - E.countP (fun r => memB (tupleKey r) (N.map tupleKey))
            + N.length := by
  intro E N hEne hNne hE hN
  match E, hEne, N, hNne with
  | (y :: ys), _, (x :: xs), _ =>
    rw [@merge_nonempty (some (y :: ys)) (some (x :: xs)) rfl rfl]
    simp only [Option.getD_some]
    rw [filter_rowKey_eq_filter_tupleKey _ _ hE hN]
    simp only [dfLen, Option.getD_some, List.length_append]
    have hc := length_filter_not_add_countP
      (fun r => memB (tupleKey r) ((x :: xs).map tupleKey)) (y :: ys)
    have hle := List.countP_le_length
      (p := fun r => memB (tupleKey r) ((x :: xs).map tupleKey)) (l := y :: ys)
    omega

/-- C5 witness: the amended theorem applied at concrete separator-free
singleton dataframes with distinct keys. -/
theorem merge_dataframes_conservation_witness :
    dfLen (merge_dataframes (some [w1]) (some [w2])) = 2 := by
  have h := merge_dataframes_conservation [w1] [w2]
    (by decide) (by decide) (by decide) (by decide)
  rw [h]
  decide

/- Model of the Python str.upper conversion applied to HISTORICO in main
   (line 288).  Char.toUpper uppercases the ASCII range, which covers every
   marker the classifier tests (VENDA PDV, RETIRADA, CANC). -/
def toUpperStr (s : String) : String :=
  ⟨s.data.map Char.toUpper⟩

/- One KARDEX movement record as selected by the query of build_kardex_query
   (lines 143-152): the columns the classifier and aggregation read. -/
structure KardexRow where
  loja : String
  codigo_produto : String
  cod_grade : String
  descricao : String
  qtde_saida : ℚ
  qtde_entrada : ℚ
  historico : String
  nome_usuario : String
  data_movimento : String
  hora_movimento : String
  numero_pedido : Nat
deriving DecidableEq

/- The uppercase normalisation of line 288:
   df_kardex del HISTORICO becomes astype(str).str.upper(). -/
def upperHist (r : KardexRow) : KardexRow :=
  { r with historico := toUpperStr r.historico }

/- Embedding of lines 292-294: the order numbers of all records whose
   normalised note contains CANC.  The pandas unique() call only removes
   duplicates and the result is consumed solely through isin membership
   tests, so deduplication is omitted as membership-equivalent. -/
def pedidos_cancelados (rowsU : List KardexRow) : List Nat :=
  (rowsU.filter (fun r => hasSub r.historico "CANC")).map (fun r => r.numero_pedido)

/- Embedding of the VENDA classifier, lines 300-309 of main: a normalised
   record is kept as a sale when its note contains VENDA PDV, or when it
   contains RETIRADA, does not itself contain CANC, and its order number is
   not among the cancelled orders.  The subsequent column assignments
   (TIPO_MOV := VENDA, QTD_MOV := QTDE_SAIDA, lines 310-311) only add
   columns and do not change which rows are selected. -/
def filtrar_vendas (rows : List KardexRow) : List KardexRow :=
  let rowsU := rows.map upperHist
  let cancelados := pedidos_cancelados rowsU
  rowsU.filter (fun r =>
    hasSub r.historico "VENDA PDV" ||
      (hasSub r.historico "RETIRADA" && !(hasSub r.historico "CANC")
        && !(memB r.numero_pedido cancelados)))

/- Sale movement at the counter (VENDA PDV marker) for order 7. -/
def s0 : KardexRow :=
  ⟨"L1", "p1", "G1", "CAMISA", 1, 0, "VENDA PDV 001", "ana", "D1", "08:00", 7⟩

/- Later cancellation note for the same order 7. -/
def c0 : KardexRow :=
  ⟨"L1", "p1", "G1", "CAMISA", 0, 0, "CANCELAMENTO PEDIDO", "ana", "D1", "09:00", 7⟩

/-- C2 counterexample: the claim as stated fails on the code.  The record c0
carries the cancellation marker and shares order number 7 with the sale
movement s0, yet the classifier keeps s0 in the VENDA set, because records
carrying the sale-at-counter marker VENDA PDV are always included (line 302);
only withdrawal-marked records are excluded by cancellation. -/
theorem vendas_cancellation_claim_cex :
    hasSub (toUpperStr c0.historico) "CANC" = true
    ∧ c0.numero_pedido = s0.numero_pedido
    ∧ filtrar_vendas [s0, c0] = [upperHist s0] := by
  refine ⟨by decide, by decide, by decide⟩

/-- C2 (amended): cancellation excludes only withdrawal-marked sale movements:
every record that the classifier keeps in the VENDA set although its order
number is among the cancelled orders necessarily carries the VENDA PDV
(sale-at-counter) marker; equivalently, a sale movement carrying only the
withdrawal marker whose order number matches a cancellation note is excluded
from the VENDA set entirely. -/
theorem vendas_cancellation_exclusion_correct :
    ∀ rows r, r ∈ filtrar_vendas rows →
      memB r.numero_pedido (pedidos_cancelados (rows.map upperHist)) = true →
      hasSub r.historico "VENDA PDV" = true := by
  intro rows r hr hcanc
  simp only [filtrar_vendas] at hr
  have hp := (List.mem_filter.mp hr).2
  rcases h1 : hasSub r.historico "VENDA PDV" with _ | _
  · rw [h1, hcanc] at hp
    simp at hp
  · rfl

/-- C2 witness: the amended theorem applied to the concrete record set made of
the counter sale s0 and the cancellation note c0 for the same order. -/
theorem vendas_cancellation_exclusion_correct_witness :
    hasSub (upperHist s0).historico "VENDA PDV" = true :=
  vendas_cancellation_exclusion_correct [s0, c0] (upperHist s0) (by decide) (by decide)

/- Calendar arithmetic modelling Python datetime values as seconds since
   1970-01-01 (naturals; the modelled domain is dates from 1970 onwards,
   which covers every timestamp this pipeline manipulates).  The two civil
   conversions use the standard era decomposition of the proleptic Gregorian
   calendar. -/
def daysFromCivil (y m d : Nat) : Nat :=
  let y1 := y - (if m ≤ 2 then 1 else 0)
  let era := y1 / 400
  let yoe := y1 - era * 400
  let mp := (m + 9) % 12
  let doy := (153 * mp + 2) / 5 + d - 1
  let doe := yoe * 365 + yoe / 4 - yoe / 100 + doy
  era * 146097 + doe - 719468

def civilFromDays (z : Nat) : Nat × Nat × Nat :=
  let z1 := z + 719468
  let era := z1 / 146097
  let doe := z1 - era * 146097
  let yoe := (doe - doe / 1460 + doe / 36524 - doe / 146096) / 365
  let y := yoe + era * 400
  let doy := doe - (365 * yoe + yoe / 4 - yoe / 100)
  let mp := (5 * doy + 2) / 153
  let d := doy - (153 * mp + 2) / 5 + 1
  let m := if mp < 10 then mp + 3 else mp - 9
  (if m ≤ 2 then y + 1 else y, m, d)

def toEpochSeconds (y m d h mi s : Nat) : Nat :=
  daysFromCivil y m d * 86400 + h * 3600 + mi * 60 + s

def pad2 (n : Nat) : String :=
  if n < 10 then "0" ++ toString n else toString n

def pad4 (n : Nat) : String :=
  if n < 10 then "000" ++ toString n
  else if n < 100 then "00" ++ toString n
  else if n < 1000 then "0" ++ toString n
  else toString n

/- Model of datetime.strftime with the year-month-day format of line 157:
   the calendar date of the instant, zero padded, with the time of day
   discarded. -/
def strfDate (t : Nat) : String :=
  let c := civilFromDays (t / 86400)
  pad4 c.1 ++ "-" ++ pad2 c.2.1 ++ "-" ++ pad2 c.2.2

/- The single-quote character of the SQL literals. -/
def sq : String :=
  String.singleton (Char.ofNat 39)

/- The base SELECT of build_kardex_query (lines 143-152). -/
def base_kardex_query : String :=
  "\n        SELECT \n            LOJA, CODIGO_PRODUTO, COD_GRADE, DESCRICAO,\n            QTDE_SAIDA, QTDE_ENTRADA, TIPO,\n            COD_GRADE_COR, COD_GRADE_TAMANHO,\n            HISTORICO, NOME_USUARIO,\n            DATA_MOVIMENTO, HORA_MOVIMENTO,\n            NUMERO_PEDIDO\n        FROM KARDEX\n    "

/- One WHERE condition of build_kardex_query (lines 157-158 and 161-162):
   DATA_MOVIMENTO compared against a quoted year-month-day date string. -/
def corteCondition (dc : Nat) : String :=
  "DATA_MOVIMENTO >= " ++ sq ++ strfDate dc ++ sq

/- Embedding of build_kardex_query (lines 141-167).  data_corte is an
   optional datetime (always truthy in Python when present); dias is the
   optional day-count CLI argument, whose Python truthiness makes the value
   0 behave like absence; now models datetime.now(). -/
def build_kardex_query (data_corte : Option Nat) (dias : Option Nat) (now : Nat) : String :=
  let conditions :=
    (match data_corte with
      | some dc => [corteCondition dc]
      | none => [])
    ++ (match dias with
      | some d => if d = 0 then [] else [corteCondition (now - d * 86400)]
      | none => [])
  if conditions.isEmpty then base_kardex_query
  else base_kardex_query ++ " WHERE " ++ String.intercalate " AND " conditions

/-- C9: the query cutoff is applied at calendar-date granularity only: for
every cutoff datetime, the generated WHERE condition compares DATA_MOVIMENTO
against the cutoff date formatted as zero-padded year-month-day with the time
of day discarded, so the query built from a cutoff equals the query built from
the start of the same calendar day and the extraction window never excludes
rows from earlier on the cutoff day; concretely the instant 2024-05-10T08:00:00
is formatted as the date 2024-05-10. -/
theorem intercalate_singleton (s x : String) : String.intercalate s [x] = x :=
  rfl

theorem build_kardex_query_date_granularity :
    ∀ t dias now,
      build_kardex_query (some t) dias now
          = build_kardex_query (some (86400 * (t / 86400))) dias now
      ∧ build_kardex_query (some t) none now
          = base_kardex_query ++ " WHERE " ++ corteCondition t
      ∧ strfDate t = strfDate (86400 * (t / 86400))
      ∧ strfDate (toEpochSeconds 2024 5 10 8 0 0) = "2024-05-10" := by
  have hfloor : ∀ t : Nat, strfDate t = strfDate (86400 * (t / 86400)) := by
    intro t
    unfold strfDate
    rw [Nat.mul_div_cancel_left _ (by norm_num : 0 < 86400)]
  intro t dias now
  refine ⟨?_, ?_, hfloor t, by decide⟩
  · unfold build_kardex_query corteCondition
    simp only [hfloor t]
  · unfold build_kardex_query
    simp only [List.append_nil, List.isEmpty_cons, if_false, Bool.false_eq_true,
      intercalate_singleton]

/- Outcome of one connection-plus-query attempt with a given charset inside
   ler_tabela (lines 74-84): a dataframe, a keyboard interrupt, or a database
   error carrying the charset and a message. -/
structure DbError where
  charset : String
  msg : String
deriving DecidableEq

inductive AttemptResult (α : Type) where
  | ok (df : α)
  | interrupt
  | err (e : DbError)
deriving DecidableEq

/- What ler_tabela itself produces: a dataframe, a process exit after a
   keyboard interrupt, or a raised Python exception, which is either a
   propagated database error or a freshly built generic Exception. -/
inductive PyError where
  | dbErr (e : DbError)
  | generic (msg : String)
deriving DecidableEq

inductive LerOutcome (α : Type) where
  | ok (df : α)
  | exited
  | raised (e : PyError)
deriving DecidableEq

/- Console output of ler_tabela: the initial reading line (line 71), the
   success line with the row count (line 78), or the interrupt line
   (line 81).  Nothing is printed when one attempt fails (lines 83-84 are a
   bare continue). -/
inductive LogEntry where
  | lendo (tabela : String)
  | sucesso
  | interrompido
deriving DecidableEq

/- Charset preference order of line 47. -/
def CHARSETS : List String :=
  ["UTF8", "WIN1252", "ISO8859_1", "DOS850"]

/- The for-loop of ler_tabela over the remaining charsets (lines 73-84):
   first successful attempt returns its dataframe and logs the success line;
   a keyboard interrupt logs and exits; any other failure silently moves on
   to the next charset; an exhausted list raises a new generic Exception
   naming the table (line 86). -/
def lerLoop {α : Type} (attempt : String → AttemptResult α) (nome : String) :
    List String → LerOutcome α × List LogEntry
  | [] => (.raised (.generic ("Falhou ao ler " ++ nome)), [])
  | cs :: rest =>
    match attempt cs with
    | .ok df => (.ok df, [.sucesso])
    | .interrupt => (.exited, [.interrompido])
    | .err _ => lerLoop attempt nome rest

/- Embedding of ler_tabela (lines 70-86). -/
def ler_tabela {α : Type} (attempt : String → AttemptResult α) (nome : String) :
    LerOutcome α × List LogEntry :=
  let r := lerLoop attempt nome CHARSETS
  (r.1, .lendo nome :: r.2)

def isErrA {α : Type} : AttemptResult α → Bool
  | .err _ => true
  | _ => false

/- Attempt oracle for which every charset fails with a distinct connection
   error. -/
def allFailAttempt : String → AttemptResult Unit :=
  fun cs => .err ⟨cs, "falha de conexao"⟩

/-- C6 counterexample: the claim as stated fails on the code.  When every
encoding fails, ler_tabela raises a freshly built generic Exception naming the
table, not the last error encountered (the DOS850 connection error is
discarded), and no per-attempt failure is logged: the only log line is the
initial reading line, because the failure handler is a bare continue. -/
theorem ler_tabela_claim_cex :
    (ler_tabela allFailAttempt "KARDEX").1
        = .raised (.generic "Falhou ao ler KARDEX")
    ∧ (ler_tabela allFailAttempt "KARDEX").1
        ≠ .raised (.dbErr ⟨"DOS850", "falha de conexao"⟩)
    ∧ (ler_tabela allFailAttempt "KARDEX").2 = [.lendo "KARDEX"] := by
  refine ⟨by decide, by decide, by decide⟩

/-- C6 (amended): each encoding in the fixed list UTF8, WIN1252, ISO8859_1,
DOS850 is attempted in order; the failure of one attempt is silently skipped
(not logged) and the next encoding is tried; if every encoding fails,
ler_tabela raises a new generic error naming the table (the individual errors
are discarded); and it never returns a successful result that did not come
from a successful attempt, so a failed query and an empty successful result
remain distinct outcomes. -/
theorem ler_tabela_fallback_correct :
    ∀ (α : Type) (attempt : String → AttemptResult α) (nome : String),
      (∀ df, attempt "UTF8" = .ok df → (ler_tabela attempt nome).1 = .ok df)
      ∧ (isErrA (attempt "UTF8") = true →
          ∀ df, attempt "WIN1252" = .ok df → (ler_tabela attempt nome).1 = .ok df)
      ∧ (isErrA (attempt "UTF8") = true → isErrA (attempt "WIN1252") = true →
          ∀ df, attempt "ISO8859_1" = .ok df → (ler_tabela attempt nome).1 = .ok df)
      ∧ (isErrA (attempt "UTF8") = true → isErrA (attempt "WIN1252") = true →
          isErrA (attempt "ISO8859_1") = true →
          ∀ df, attempt "DOS850" = .ok df → (ler_tabela attempt nome).1 = .ok df)
      ∧ ((∀ cs ∈ CHARSETS, isErrA (attempt cs) = true) →
          (ler_tabela attempt nome).1 = .raised (.generic ("Falhou ao ler " ++ nome))
          ∧ (ler_tabela attempt nome).2 = [.lendo nome])
      ∧ (∀ df, (ler_tabela attempt nome).1 = .ok df →
          ∃ cs ∈ CHARSETS, attempt cs = .ok df) := by
  intro α attempt nome
  have herr : ∀ (r : AttemptResult α), isErrA r = true → ∃ e, r = .err e := by
    intro r h
    cases r with
    | ok df => exact absurd h (by simp [isErrA])
    | interrupt => exact absurd h (by simp [isErrA])
    | err e => exact ⟨e, rfl⟩
  refine ⟨?_, ?_, ?_, ?_, ?_, ?_⟩
  · intro df h
    simp [ler_tabela, CHARSETS, lerLoop, h]
  · intro h1 df h
    obtain ⟨e1, he1⟩ := herr _ h1
    simp [ler_tabela, CHARSETS, lerLoop, he1, h]
  · intro h1 h2 df h
    obtain ⟨e1, he1⟩ := herr _ h1
    obtain ⟨e2, he2⟩ := herr _ h2
    simp [ler_tabela, CHARSETS, lerLoop, he1, he2, h]
  · intro h1 h2 h3 df h
    obtain ⟨e1, he1⟩ := herr _ h1
    obtain ⟨e2, he2⟩ := herr _ h2
    obtain ⟨e3, he3⟩ := herr _ h3
    simp [ler_tabela, CHARSETS, lerLoop, he1, he2, he3, h]
  · intro hall
    obtain ⟨e1, he1⟩ := herr _ (hall "UTF8" (by decide))
    obtain ⟨e2, he2⟩ := herr _ (hall "WIN1252" (by decide))
    obtain ⟨e3, he3⟩ := herr _ (hall "ISO8859_1" (by decide))
    obtain ⟨e4, he4⟩ := herr _ (hall "DOS850" (by decide))
    constructor <;> simp [ler_tabela, CHARSETS, lerLoop, he1, he2, he3, he4]
  · intro df h
    rcases he1 : attempt "UTF8" with df1 | _ | e1 <;>
      rcases he2 : attempt "WIN1252" with df2 | _ | e2 <;>
        rcases he3 : attempt "ISO8859_1" with df3 | _ | e3 <;>
          rcases he4 : attempt "DOS850" with df4 | _ | e4 <;>
            simp_all [ler_tabela, CHARSETS, lerLoop]

/-- C6 witness: the amended theorem applied at the all-failing attempt oracle:
all four encodings fail, the raised error is the generic one naming KARDEX
and the log holds only the initial reading line. -/
theorem ler_tabela_fallback_correct_witness :
    (ler_tabela allFailAttempt "KARDEX").1
        = .raised (.generic ("Falhou ao ler " ++ "KARDEX"))
    ∧ (ler_tabela allFailAttempt "KARDEX").2 = [.lendo "KARDEX"] :=
  (ler_tabela_fallback_correct Unit allFailAttempt "KARDEX").2.2.2.2.1 (by decide)

/- Rounding to the nearest integer with ties to even, the rounding mode of
   pandas round; prices are idealised as rationals in place of binary
   floats, and a missing value (NaN in pandas) is modelled as none. -/
def roundHalfEvenQ (q : ℚ) : ℤ :=
  if q - (⌊q⌋ : ℚ) < 1/2 then ⌊q⌋
  else if 1/2 < q - (⌊q⌋ : ℚ) then ⌊q⌋ + 1
  else if ⌊q⌋ % 2 = 0 then ⌊q⌋ else ⌊q⌋ + 1

/- Rounding to 2 decimal places, modelling the pandas round call with
   argument 2 applied to the metric columns (lines 455, 461, 467, 472, 480). -/
def round2 (q : ℚ) : ℚ :=
  (roundHalfEvenQ (q * 100) : ℚ) / 100

theorem roundHalfEvenQ_zero : roundHalfEvenQ 0 = 0 := by
  unfold roundHalfEvenQ
  norm_num

theorem round2_zero : round2 0 = 0 := by
  have h0 : roundHalfEvenQ (0 * 100) = 0 := by
    rw [zero_mul, roundHalfEvenQ_zero]
  rw [round2, h0]
  norm_num

theorem round2_third : round2 ((1 : ℚ)/3) = 33/100 := by
  have hq : ((1 : ℚ)/3) * 100 = 100/3 := by norm_num
  have hf : ⌊(100 : ℚ)/3⌋ = 33 := by
    rw [Int.floor_eq_iff]
    constructor <;> norm_num
  have hr : roundHalfEvenQ (((1 : ℚ)/3) * 100) = 33 := by
    unfold roundHalfEvenQ
    rw [hq, hf]
    rw [if_pos (by norm_num : (100 : ℚ)/3 - ((33 : ℤ) : ℚ) < 1/2)]
  rw [round2, hr]
  norm_num

/- The per-row lambda of the MKP computation (lines 450-454): sell price over
   cost price when the cost price compares greater than zero, else the number
   0.  A missing cost price makes the comparison false (NaN semantics), giving
   0; a missing sell price with a positive cost price propagates as missing. -/
def mkpLambda (preco_vend preco_cust : Option ℚ) : Option ℚ :=
  match preco_cust with
  | none => some 0
  | some c =>
    if 0 < c then
      match preco_vend with
      | none => none
      | some v => some (v / c)
    else some 0

/- The MKP column value: the lambda result rounded to 2 decimals (line 455). -/
def mkpRow (preco_vend preco_cust : Option ℚ) : Option ℚ :=
  (mkpLambda preco_vend preco_cust).map round2

/- FATURAMENTO (line 461): quantity times the sell price with missing values
   filled with 0, rounded to 2 decimals. -/
def faturamentoRow (qtd : ℚ) (preco_vend : Option ℚ) : ℚ :=
  round2 (qtd * preco_vend.getD 0)

/- CUSTO_TOTAL (line 467): quantity times the cost price with missing values
   filled with 0, rounded to 2 decimals. -/
def custoTotalRow (qtd : ℚ) (preco_cust : Option ℚ) : ℚ :=
  round2 (qtd * preco_cust.getD 0)

/- The MARGEM_BRUTA column (lines 475-480): revenue over total cost when the
   total cost compares greater than zero, else the number 0, rounded to 2
   decimals. -/
def margemRow (fat custo : ℚ) : ℚ :=
  round2 (if 0 < custo then fat / custo else 0)

/-- C7 counterexample: the claim as stated fails on the code.  For sell price
1 and cost price 3 the cost price is strictly positive, yet the MKP column
value is 33/100 and not the quotient 1/3, because the implementation rounds
the quotient to 2 decimal places. -/
theorem mkp_rounding_cex :
    mkpRow (some 1) (some 3) = some (33/100)
    ∧ mkpRow (some 1) (some 3) ≠ some ((1 : ℚ)/3)
    ∧ (0 : ℚ) < 3 := by
  have h : mkpRow (some 1) (some 3) = some (round2 ((1 : ℚ)/3)) := by
    simp [mkpRow, mkpLambda, (by norm_num : (0 : ℚ) < 3)]
  refine ⟨?_, ?_, by norm_num⟩
  · rw [h, round2_third]
  · rw [h, round2_third]
    simp only [ne_eq, Option.some.injEq]
    norm_num

/-- C7 (amended): the markup MKP equals the sell price divided by the cost
price rounded to 2 decimal places when the cost price is strictly positive
(propagating a missing sell price), and is exactly the number 0 when the cost
price is 0, negative, or missing; the gross margin MARGEM_BRUTA equals revenue
divided by total cost rounded to 2 decimal places when the total cost is
strictly positive and is exactly the number 0 when the total cost is 0 or
negative; and a missing cost price makes the total cost itself exactly 0 —
in all guarded cases the result is the number 0, never an error, a missing
value, or an undefined value. -/
theorem metric_guards_correct :
    (∀ preco_vend preco_cust : Option ℚ, ∀ c, preco_cust = some c → 0 < c →
        mkpRow preco_vend preco_cust = preco_vend.map (fun v => round2 (v / c)))
    ∧ (∀ preco_vend : Option ℚ, mkpRow preco_vend none = some 0)
    ∧ (∀ preco_vend : Option ℚ, ∀ c, c ≤ 0 → mkpRow preco_vend (some c) = some 0)
    ∧ (∀ fat custo : ℚ, 0 < custo → margemRow fat custo = round2 (fat / custo))
    ∧ (∀ fat custo : ℚ, custo ≤ 0 → margemRow fat custo = 0)
    ∧ (∀ qtd : ℚ, custoTotalRow qtd none = 0) := by
  refine ⟨?_, ?_, ?_, ?_, ?_, ?_⟩
  · intro preco_vend preco_cust c hc hpos
    subst hc
    cases preco_vend <;> simp [mkpRow, mkpLambda, hpos]
  · intro preco_vend
    simp [mkpRow, mkpLambda, round2_zero]
  · intro preco_vend c hle
    simp [mkpRow, mkpLambda, not_lt.mpr hle, round2_zero]
  · intro fat custo hpos
    rw [margemRow, if_pos hpos]
  · intro fat custo hle
    rw [margemRow, if_neg (not_lt.mpr hle), round2_zero]
  · intro qtd
    simp [custoTotalRow, round2_zero]

/-- C7 witness: the amended theorem applied at concrete prices: a positive
cost price of 2 gives the rounded quotient, cost price 0 gives MKP 0, total
cost 0 gives MARGEM_BRUTA 0. -/
theorem metric_guards_correct_witness :
    mkpRow (some 3) (some 2) = some (round2 ((3 : ℚ)/2))
    ∧ mkpRow (some 3) (some 0) = some 0
    ∧ margemRow 10 0 = 0 := by
  refine ⟨?_, ?_, ?_⟩
  · have h := metric_guards_correct.1 (some 3) (some 2) 2 rfl (by norm_num)
    simpa using h
  · exact metric_guards_correct.2.2.1 (some 3) 0 (le_refl 0)
  · exact metric_guards_correct.2.2.2.2.1 10 0 (le_refl 0)

/- The run-state record written by save_last_run_info (lines 263-267 and
   565-571): the early-return path writes only timestamp, mode and a zero
   record count, the full path also writes total records and duration, so
   the last two fields are optional. -/
structure RunInfo where
  timestamp : Nat
  mode : String
  records_processed : Nat
  total_records : Option Nat
  duration_seconds : Option Nat
deriving DecidableEq

/- The files of the output directory that main reads and writes: the
   run-state JSON (.saida_grade_last_run.json) and the merged CSV
   (SAIDA_GRADE.csv); none models an absent file. -/
structure FS where
  last_run : Option RunInfo
  csv : Option (List SRow)
deriving DecidableEq

/- get_last_run_info (lines 109-117) reads the run-state file. -/
def get_last_run_info (fs : FS) : Option RunInfo :=
  fs.last_run

/- save_last_run_info (lines 120-123) overwrites the run-state file. -/
def save_last_run_info (info : RunInfo) (fs : FS) : FS :=
  { fs with last_run := some info }

/- load_existing_data (lines 126-138) loads the persisted CSV if present. -/
def load_existing_data (fs : FS) : Option (List SRow) :=
  fs.csv

/- The parsed CLI flags of parse_args (lines 50-56). -/
structure Args where
  full : Bool
  days : Option Nat
deriving DecidableEq

/- Python truthiness of the optional integer argument: None and 0 are falsy
   (the elif of line 240 and the if of line 160). -/
def truthyDays : Option Nat → Bool
  | none => false
  | some n => n != 0

def SAFETY_WINDOW_HOURS : Nat := 2

def timedeltaHours (h : Nat) : Nat :=
  h * 3600

/- Result of the mode-determination block of main (lines 232-251). -/
structure ModeDecision where
  is_incremental : Bool
  data_corte : Option Nat
  use_cache : Bool
  label : String
deriving DecidableEq

/- Embedding of lines 232-251: the full flag wins, then a truthy day count,
   then incremental mode when both a run-state record and the CSV exist
   (with cutoff equal to the last-run timestamp minus the safety window),
   else a first-run full load. -/
def determine_mode (args : Args) (fs : FS) : ModeDecision :=
  if args.full then ⟨false, none, false, "full"⟩
  else if truthyDays args.days then ⟨false, none, false, "days"⟩
  else
    match fs.last_run with
    | some lr =>
      if fs.csv.isSome then
        ⟨true, some (lr.timestamp - timedeltaHours SAFETY_WINDOW_HOURS), true, "incremental"⟩
      else ⟨false, none, false, "first"⟩
    | none => ⟨false, none, false, "first"⟩

structure MainOutcome where
  fs : FS
  query : String
  mode_label : String
  is_incremental : Bool
  data_corte : Option Nat
  did_merge : Bool
  exit_ok : Bool
deriving DecidableEq

/- Control-flow embedding of main (lines 224-575).  The database contents
   and the transformation of sections 2-6 are oracle inputs: kardex is the
   extraction result and df_new the classified, aggregated and enriched new
   lines (df_new is empty exactly when df_saidas is, since grouping and
   enrichment preserve nonemptiness); dur models the measured duration and
   write_ok whether the final to_csv call succeeds.  An empty extraction or
   an empty sale set returns early, writing a fresh run state only in
   incremental mode (lines 259-268 and 331-339); otherwise the merge of
   section 7 runs only in incremental mode, the CSV write failure exits
   before save_last_run_info is reached (lines 547-560, exit_ok false,
   file states as before the write), and a successful write persists the
   merged dataframe and then the new run state (lines 565-571). -/
def mainModel (args : Args) (fs : FS) (now : Nat) (kardex : List KardexRow)
    (df_new : List SRow) (dur : Nat) (write_ok : Bool) : MainOutcome :=
  let md := determine_mode args fs
  let query := build_kardex_query md.data_corte args.days now
  if kardex.isEmpty then
    let fs1 := if md.is_incremental
      then save_last_run_info ⟨now, "incremental", 0, none, none⟩ fs else fs
    ⟨fs1, query, md.label, md.is_incremental, md.data_corte, false, true⟩
  else if df_new.isEmpty then
    let fs1 := if md.is_incremental
      then save_last_run_info ⟨now, "incremental", 0, none, none⟩ fs else fs
    ⟨fs1, query, md.label, md.is_incremental, md.data_corte, false, true⟩
  else
    let df_final := if md.is_incremental
      then merge_dataframes (load_existing_data fs) (some df_new) else some df_new
    if write_ok then
      let info : RunInfo := ⟨now, if md.is_incremental then "incremental" else "full",
        df_new.length, some (dfLen df_final), some dur⟩
      ⟨{ last_run := some info, csv := df_final }, query, md.label,
        md.is_incremental, md.data_corte, md.is_incremental, true⟩
    else
      ⟨fs, query, md.label, md.is_incremental, md.data_corte, md.is_incremental, false⟩

theorem mainModel_mode_fields (args : Args) (fs : FS) (now : Nat)
    (kardex : List KardexRow) (df_new : List SRow) (dur : Nat) (write_ok : Bool) :
    (mainModel args fs now kardex df_new dur write_ok).is_incremental
        = (determine_mode args fs).is_incremental
    ∧ (mainModel args fs now kardex df_new dur write_ok).data_corte
        = (determine_mode args fs).data_corte
    ∧ (mainModel args fs now kardex df_new dur write_ok).mode_label
        = (determine_mode args fs).label
    ∧ (mainModel args fs now kardex df_new dur write_ok).query
        = build_kardex_query (determine_mode args fs).data_corte args.days now
    ∧ ((determine_mode args fs).is_incremental = false →
        (mainModel args fs now kardex df_new dur write_ok).did_merge = false) := by
  unfold mainModel
  split
  · exact ⟨rfl, rfl, rfl, rfl, fun _ => rfl⟩
  · split
    · exact ⟨rfl, rfl, rfl, rfl, fun _ => rfl⟩
    · split
      · exact ⟨rfl, rfl, rfl, rfl, fun h => h⟩
      · exact ⟨rfl, rfl, rfl, rfl, fun h => h⟩

/-- C3: if the final write of the merged output file fails, the run-state
file is not updated: for every run that reaches the final persistence step
(nonempty extraction and nonempty new lines) whose write fails, reading the
run state afterwards returns exactly what it returned before the run, and the
run exits with a failure before save_last_run_info is called. -/
theorem run_state_preserved_on_failed_write :
    ∀ (args : Args) (fs : FS) (now : Nat) (kardex : List KardexRow)
      (df_new : List SRow) (dur : Nat),
      kardex ≠ [] → df_new ≠ [] →
      get_last_run_info ((mainModel args fs now kardex df_new dur false).fs)
          = get_last_run_info fs
      ∧ (mainModel args fs now kardex df_new dur false).exit_ok = false := by
  intro args fs now kardex df_new dur hk hd
  match kardex, hk, df_new, hd with
  | k :: ks, _, r :: rs, _ => exact ⟨rfl, rfl⟩

/-- C3 witness: a concrete failed run over a run state with timestamp T0:
afterwards the run state still holds timestamp T0. -/
theorem run_state_preserved_on_failed_write_witness :
    get_last_run_info ((mainModel ⟨false, none⟩
        ⟨some ⟨1715328000, "incremental", 5, none, none⟩, some [w1]⟩
        1715330000 [s0] [w2] 3 false).fs)
      = some ⟨1715328000, "incremental", 5, none, none⟩ := by
  have h := run_state_preserved_on_failed_write ⟨false, none⟩
    ⟨some ⟨1715328000, "incremental", 5, none, none⟩, some [w1]⟩
    1715330000 [s0] [w2] 3 (List.cons_ne_nil _ _) (List.cons_ne_nil _ _)
  rw [h.1]
  rfl

/-- C8: in incremental mode (no full flag, falsy day count, an existing run
state and an existing CSV) the extraction cutoff equals the last-run timestamp
minus the fixed 2-hour safety window; concretely, a last-run timestamp of
2024-05-10T08:00:00 with the 2-hour window yields the cutoff
2024-05-10T06:00:00. -/
theorem incremental_cutoff_correct :
    (∀ (args : Args) (fs : FS) (now : Nat) (kardex : List KardexRow)
        (df_new : List SRow) (dur : Nat) (write_ok : Bool) (lr : RunInfo),
        args.full = false → truthyDays args.days = false →
        fs.last_run = some lr → fs.csv.isSome = true →
        (mainModel args fs now kardex df_new dur write_ok).is_incremental = true
        ∧ (mainModel args fs now kardex df_new dur write_ok).data_corte
            = some (lr.timestamp - timedeltaHours SAFETY_WINDOW_HOURS))
    ∧ (determine_mode ⟨false, none⟩
          ⟨some ⟨toEpochSeconds 2024 5 10 8 0 0, "full", 0, none, none⟩,
            some []⟩).data_corte
        = some (toEpochSeconds 2024 5 10 6 0 0) := by
  constructor
  · intro args fs now kardex df_new dur write_ok lr hfull hdays hlr hcsv
    obtain ⟨h1, h2, _, _, _⟩ :=
      mainModel_mode_fields args fs now kardex df_new dur write_ok
    rw [h1, h2]
    unfold determine_mode
    rw [hfull, hdays, hlr, hcsv]
    exact ⟨rfl, rfl⟩
  · decide

/-- C8 witness: the incremental-mode clause applied at a concrete state whose
run state holds the timestamp 2024-05-10T08:00:00. -/
theorem incremental_cutoff_correct_witness :
    (mainModel ⟨false, none⟩
        ⟨some ⟨toEpochSeconds 2024 5 10 8 0 0, "full", 3, none, none⟩, some [w1]⟩
        (toEpochSeconds 2024 5 11 9 0 0) [s0] [w2] 5 true).data_corte
      = some (toEpochSeconds 2024 5 10 6 0 0) := by
  have h := (incremental_cutoff_correct.1 ⟨false, none⟩
    ⟨some ⟨toEpochSeconds 2024 5 10 8 0 0, "full", 3, none, none⟩, some [w1]⟩
    (toEpochSeconds 2024 5 11 9 0 0) [s0] [w2] 5 true
    ⟨toEpochSeconds 2024 5 10 8 0 0, "full", 3, none, none⟩ rfl rfl rfl rfl).2
  rw [h]
  decide

/-- C10 counterexample: the claim as stated fails on the code.  Invoking with
the full flag and a day count of 0 is reported as a full load, but the
extraction query carries no day-count condition at all (no WHERE clause),
because the Python truthiness test on the day count treats 0 like absence;
the claim instead demands a condition restricting DATA_MOVIMENTO for every
day count. -/
theorem full_days_zero_cex :
    (mainModel ⟨true, some 0⟩ ⟨none, none⟩ 1715328000 [s0] [w2] 1 true).query
        = base_kardex_query
    ∧ hasSub base_kardex_query "WHERE" = false
    ∧ (mainModel ⟨true, some 0⟩ ⟨none, none⟩ 1715328000 [s0] [w2] 1 true).mode_label
        = "full" := by
  refine ⟨rfl, by decide, rfl⟩

/-- C10 (amended): the full flag does not cancel a simultaneously given
nonzero day restriction: for every invocation with the full flag and a day
count N with N nonzero, the run is reported and treated as a full load (no
incremental cutoff, no merge with the existing file), yet the extraction
query still carries the condition restricting DATA_MOVIMENTO to the last N
days, because the day count is passed to the query builder regardless of
mode. -/
theorem full_flag_days_correct :
    ∀ (args : Args) (fs : FS) (now : Nat) (kardex : List KardexRow)
      (df_new : List SRow) (dur : Nat) (write_ok : Bool) (n : Nat),
      args.full = true → args.days = some n → n ≠ 0 →
      (mainModel args fs now kardex df_new dur write_ok).mode_label = "full"
      ∧ (mainModel args fs now kardex df_new dur write_ok).is_incremental = false
      ∧ (mainModel args fs now kardex df_new dur write_ok).data_corte = none
      ∧ (mainModel args fs now kardex df_new dur write_ok).did_merge = false
      ∧ (mainModel args fs now kardex df_new dur write_ok).query
          = base_kardex_query ++ " WHERE " ++ corteCondition (now - n * 86400) := by
  intro args fs now kardex df_new dur write_ok n hfull hdays hn
  obtain ⟨h1, h2, h3, h4, h5⟩ :=
    mainModel_mode_fields args fs now kardex df_new dur write_ok
  have hmd : determine_mode args fs = ⟨false, none, false, "full"⟩ := by
    unfold determine_mode
    rw [hfull]
    simp
  refine ⟨by rw [h3, hmd], by rw [h1, hmd], by rw [h2, hmd], h5 (by rw [hmd]), ?_⟩
  rw [h4, hmd, hdays]
  unfold build_kardex_query
  simp [hn, intercalate_singleton]

/-- C10 witness: the amended theorem applied at a concrete invocation with
the full flag and a day count of 7. -/
theorem full_flag_days_correct_witness :
    (mainModel ⟨true, some 7⟩ ⟨none, none⟩ 1715328000 [s0] [w2] 1 true).query
      = base_kardex_query ++ " WHERE " ++ corteCondition (1715328000 - 7 * 86400) := by
  exact (full_flag_days_correct ⟨true, some 7⟩ ⟨none, none⟩ 1715328000 [s0] [w2] 1 true 7
    rfl rfl (by decide)).2.2.2.2

end SaidaGrade
